import Mathlib

/-!
Verification of the ClamSense backend (`src/main.py`).

The repository exposes two pure calculators behind an HTTP boundary:

* a PSS-10 survey scorer (`pss10_score`, lines 83-102), and
* a heuristic risk estimator (`predict`, lines 119-145).

Both are embedded here as executable Lean functions over `ℚ` (Python
floats are modelled as rationals) and `ℤ` (Python ints).  Python's
`round(x, 3)` is modelled as round-half-to-even at three decimal
places, Python's convention for `round`.
-/

/-- `min(4, max(0, int(a)))` from `main.py` line 87: clamp a survey answer
into the range `[0, 4]`. -/
def clampAns (a : ℤ) : ℤ := min 4 (max 0 a)

/-- `REVERSE_SCORED = {3, 4, 6, 7}` from `main.py` line 73. -/
def REVERSE_SCORED : Finset ℕ := {3, 4, 6, 7}

/-- The clamping branch of `pss10_score` (`main.py` lines 85-89): if any
answer lies outside `[0,1,2,3,4]`, every answer is clamped into `[0,4]`;
otherwise the answers are used as given. -/
def surveyAnswers (answers : List ℤ) : List ℤ :=
  if answers.any (fun a => decide (a ∉ ([0, 1, 2, 3, 4] : List ℤ))) then
    answers.map clampAns
  else
    answers

/-- The accumulation loop of `pss10_score` (`main.py` lines 91-93):
`score += (4 - a) if i in REVERSE_SCORED else a`, with `i` the 0-based
position of answer `a`. -/
def scoreFrom : ℕ → List ℤ → ℤ
  | _, [] => 0
  | i, a :: rest => (if i ∈ REVERSE_SCORED then 4 - a else a) + scoreFrom (i + 1) rest

/-- The full score computed by `pss10_score`: the loop applied to the
(possibly clamped) answers. -/
def surveyScore (answers : List ℤ) : ℤ :=
  scoreFrom 0 (surveyAnswers answers)

/-- `band = "low" if score <= 13 else "moderate" if score <= 26 else "high"`
(`main.py` line 96). -/
def surveyBand (score : ℤ) : String :=
  if score ≤ 13 then "low" else if score ≤ 26 then "moderate" else "high"

/-- The fixed explanation per band (`main.py` lines 97-101). -/
def surveyExplanation (band : String) : String :=
  if band = "low" then "Low perceived stress"
  else if band = "moderate" then "Moderate perceived stress—consider regular check-ins"
  else "High perceived stress—try immediate coping tools and consider professional support"

/-- The response model of `/survey/pss10/score` (`main.py` lines 78-81). -/
structure PSS10Response where
  score : ℤ
  band : String
  explanation : String
deriving DecidableEq

/-- The endpoint `pss10_score` (`main.py` lines 83-102), as a pure
function of the validated answer list. -/
def pss10_score (answers : List ℤ) : PSS10Response :=
  { score := surveyScore answers
    band := surveyBand (surveyScore answers)
    explanation := surveyExplanation (surveyBand (surveyScore answers)) }

/-- The request model of `/predict` (`main.py` lines 105-112).  Floats are
modelled as `ℚ`, ints as `ℤ`, the optional field as `Option ℤ`. -/
structure PredictRequest where
  heart_rate : ℚ
  sleep_hours : ℚ
  steps : ℤ
  day_of_week : ℤ
  hour : ℤ
  mood_score : ℚ
  pss10_score : Option ℤ
deriving DecidableEq

/-- The field constraints pydantic enforces on `PredictRequest`
(`main.py` lines 106-112) before `predict` runs. -/
def ValidPredictRequest (req : PredictRequest) : Prop :=
  0 < req.heart_rate ∧
  0 ≤ req.sleep_hours ∧ req.sleep_hours ≤ 14 ∧
  0 ≤ req.steps ∧
  0 ≤ req.day_of_week ∧ req.day_of_week ≤ 6 ∧
  0 ≤ req.hour ∧ req.hour ≤ 23 ∧
  0 ≤ req.mood_score ∧ req.mood_score ≤ 1 ∧
  (match req.pss10_score with
   | none => True
   | some s => 0 ≤ s ∧ s ≤ 40)

instance (req : PredictRequest) : Decidable (ValidPredictRequest req) := by
  unfold ValidPredictRequest
  cases req.pss10_score <;> exact inferInstance

/-- The response model of `/predict` (`main.py` lines 114-117). -/
structure PredictResponse where
  predicted_level : ℚ
  risk_band : String
  factors : List String
deriving DecidableEq

/-- `hr_component = min(1.0, max(0.0, (req.heart_rate - 55) / 55))`
(`main.py` line 123). -/
def hr_component (req : PredictRequest) : ℚ :=
  min 1 (max 0 ((req.heart_rate - 55) / 55))

/-- `sleep_component = 1.0 - min(1.0, req.sleep_hours / 8.0)`
(`main.py` line 124). -/
def sleep_component (req : PredictRequest) : ℚ :=
  1 - min 1 (req.sleep_hours / 8)

/-- `steps_component = max(0.0, 1.0 - min(1.0, req.steps / 8000)) * 0.4`
(`main.py` line 125). -/
def steps_component (req : PredictRequest) : ℚ :=
  max 0 (1 - min 1 ((req.steps : ℚ) / 8000)) * 0.4

/-- `mood_component = 1.0 - req.mood_score` (`main.py` line 126). -/
def mood_component (req : PredictRequest) : ℚ :=
  1 - req.mood_score

/-- `circadian_component = 0.15 if req.hour in [10, 11, 15, 16] else 0.0`
(`main.py` line 127). -/
def circadian_component (req : PredictRequest) : ℚ :=
  if req.hour ∈ ([10, 11, 15, 16] : List ℤ) then 0.15 else 0

/-- `baseline_component` (`main.py` lines 128-130): `0.0`, overwritten
with `min(1.0, req.pss10_score / 40.0) * 0.3` when `pss10_score` is
present. -/
def baseline_component (req : PredictRequest) : ℚ :=
  match req.pss10_score with
  | some s => min 1 ((s : ℚ) / 40) * 0.3
  | none => 0

/-- The weighted composite before clamping (`main.py` line 132). -/
def risk_raw (req : PredictRequest) : ℚ :=
  0.35 * hr_component req + 0.25 * sleep_component req + 0.15 * mood_component req +
    0.10 * steps_component req + circadian_component req + baseline_component req

/-- `risk = max(0.0, min(1.0, risk))` (`main.py` line 133). -/
def risk (req : PredictRequest) : ℚ :=
  max 0 (min 1 (risk_raw req))

/-- `band = "low" if risk < 0.33 else "moderate" if risk < 0.66 else "high"`
(`main.py` line 135), applied to the clamped composite. -/
def risk_band (req : PredictRequest) : String :=
  if risk req < 0.33 then "low" else if risk req < 0.66 then "moderate" else "high"

/-- The factor list built by the six sequential `if`/`append` statements
(`main.py` lines 137-143), in evaluation order. -/
def factors (req : PredictRequest) : List String :=
  (if hr_component req > 0.6 then ["elevated heart rate"] else []) ++
  (if sleep_component req > 0.6 then ["short sleep duration"] else []) ++
  (if mood_component req > 0.6 then ["low self-reported mood"] else []) ++
  (if steps_component req > 0.4 then ["very low activity"] else []) ++
  (if circadian_component req > 0 then ["typical peak hours"] else []) ++
  (if baseline_component req > 0.15 then ["high baseline stress"] else [])

/-- Round-half-to-even to an integer: the behaviour of Python's `round`
on a tie, otherwise rounding to the nearest integer. -/
def roundHalfEven (x : ℚ) : ℤ :=
  if x - ⌊x⌋ < 1/2 then ⌊x⌋
  else if 1/2 < x - ⌊x⌋ then ⌊x⌋ + 1
  else if ⌊x⌋ % 2 = 0 then ⌊x⌋ else ⌊x⌋ + 1

/-- `round(risk, 3)` (`main.py` line 145): round-half-to-even at three
decimal places. -/
def round3 (x : ℚ) : ℚ :=
  (roundHalfEven (1000 * x) : ℚ) / 1000

/-- The endpoint `predict` (`main.py` lines 119-145), as a pure function
of the validated request. -/
def predict (req : PredictRequest) : PredictResponse :=
  { predicted_level := round3 (risk req)
    risk_band := risk_band req
    factors := factors req }

/-- `clamp01(x) = max(0, min(1, x))`, the clamping function of the
specification. -/
def clamp01 (x : ℚ) : ℚ := max 0 (min 1 x)

/-! ### Helper lemmas: survey scorer -/

theorem mem01234 (a : ℤ) : a ∈ ([0, 1, 2, 3, 4] : List ℤ) ↔ 0 ≤ a ∧ a ≤ 4 := by
  simp
  omega

theorem clampAns_bounds (a : ℤ) : 0 ≤ clampAns a ∧ clampAns a ≤ 4 := by
  unfold clampAns
  omega

theorem clampAns_eq_of_mem (a : ℤ) (h0 : 0 ≤ a) (h4 : a ≤ 4) : clampAns a = a := by
  unfold clampAns
  omega

theorem surveyScore_eq_clamped (l : List ℤ) :
    surveyScore l = scoreFrom 0 (l.map clampAns) := by
  unfold surveyScore surveyAnswers
  by_cases h : (l.any fun a => decide (a ∉ ([0, 1, 2, 3, 4] : List ℤ))) = true
  · rw [if_pos h]
  · rw [if_neg h]
    simp only [List.any_eq_true, decide_eq_true_eq, not_exists, not_and, not_not] at h
    have hmap : l.map clampAns = l := by
      conv_rhs => rw [← List.map_id l]
      apply List.map_congr_left
      intro a ha
      obtain ⟨h0, h4⟩ := (mem01234 a).mp (h a ha)
      simpa using clampAns_eq_of_mem a h0 h4
    rw [hmap]

theorem scoreFrom_bounds (l : List ℤ) :
    ∀ i : ℕ, (∀ a ∈ l, 0 ≤ a ∧ a ≤ 4) →
      0 ≤ scoreFrom i l ∧ scoreFrom i l ≤ 4 * l.length := by
  induction l with
  | nil => intro i _; simp [scoreFrom]
  | cons a rest ih =>
    intro i h
    have ha := h a (List.mem_cons_self a rest)
    have hr := ih (i + 1) (fun b hb => h b (List.mem_cons_of_mem a hb))
    have hc : 0 ≤ (if i ∈ REVERSE_SCORED then 4 - a else a) ∧
        (if i ∈ REVERSE_SCORED then 4 - a else a) ≤ 4 := by
      split_ifs <;> omega
    simp only [scoreFrom, List.length_cons]
    push_cast
    omega

/-- **C2.** For exactly 10 answers each in `{0,1,2,3,4}`, the survey score
is the sum of `4 - a_i` at the reverse-scored positions `{3,4,6,7}` and
`a_i` elsewhere, and is an integer in `[0, 40]`. -/
theorem C2_survey_score_formula (a0 a1 a2 a3 a4 a5 a6 a7 a8 a9 : ℤ)
    (h : ∀ a ∈ ([a0, a1, a2, a3, a4, a5, a6, a7, a8, a9] : List ℤ), 0 ≤ a ∧ a ≤ 4) :
    surveyScore [a0, a1, a2, a3, a4, a5, a6, a7, a8, a9] =
      a0 + a1 + a2 + (4 - a3) + (4 - a4) + a5 + (4 - a6) + (4 - a7) + a8 + a9 ∧
    0 ≤ surveyScore [a0, a1, a2, a3, a4, a5, a6, a7, a8, a9] ∧
    surveyScore [a0, a1, a2, a3, a4, a5, a6, a7, a8, a9] ≤ 40 := by
  have h0 := h a0 (by simp)
  have h1 := h a1 (by simp)
  have h2 := h a2 (by simp)
  have h3 := h a3 (by simp)
  have h4 := h a4 (by simp)
  have h5 := h a5 (by simp)
  have h6 := h a6 (by simp)
  have h7 := h a7 (by simp)
  have h8 := h a8 (by simp)
  have h9 := h a9 (by simp)
  have hs : surveyScore [a0, a1, a2, a3, a4, a5, a6, a7, a8, a9] =
      scoreFrom 0 [a0, a1, a2, a3, a4, a5, a6, a7, a8, a9] := by
    unfold surveyScore surveyAnswers
    have hany : ¬ (([a0, a1, a2, a3, a4, a5, a6, a7, a8, a9] : List ℤ).any
        fun a => decide (a ∉ ([0, 1, 2, 3, 4] : List ℤ))) = true := by
      simp only [List.any_eq_true, decide_eq_true_eq, not_exists, not_and, not_not]
      intro a ha
      exact (mem01234 a).mpr (h a ha)
    rw [if_neg hany]
  rw [hs]
  simp only [scoreFrom, REVERSE_SCORED]
  norm_num
  omega

/-- Witness for `C2_survey_score_formula` at the all-zero answer list. -/
theorem C2_survey_score_formula_witness :
    surveyScore [0, 0, 0, 0, 0, 0, 0, 0, 0, 0] =
      0 + 0 + 0 + (4 - 0) + (4 - 0) + 0 + (4 - 0) + (4 - 0) + 0 + 0 ∧
    0 ≤ surveyScore [0, 0, 0, 0, 0, 0, 0, 0, 0, 0] ∧
    surveyScore [0, 0, 0, 0, 0, 0, 0, 0, 0, 0] ≤ 40 :=
  C2_survey_score_formula 0 0 0 0 0 0 0 0 0 0 (by decide)

/-- **C5.** Survey banding: "low" iff `score ≤ 13`, "moderate" iff
`14 ≤ score ≤ 26`, "high" iff `score ≥ 27`; boundary values 13, 14, 26, 27
map as stated; each band has its single fixed explanation sentence. -/
theorem C5_survey_banding (s : ℤ) :
    (surveyBand s = "low" ↔ s ≤ 13) ∧
    (surveyBand s = "moderate" ↔ 14 ≤ s ∧ s ≤ 26) ∧
    (surveyBand s = "high" ↔ 27 ≤ s) ∧
    surveyBand 13 = "low" ∧ surveyBand 14 = "moderate" ∧
    surveyBand 26 = "moderate" ∧ surveyBand 27 = "high" ∧
    surveyExplanation "low" = "Low perceived stress" ∧
    surveyExplanation "moderate" = "Moderate perceived stress—consider regular check-ins" ∧
    surveyExplanation "high" =
      "High perceived stress—try immediate coping tools and consider professional support" := by
  refine ⟨?_, ?_, ?_, by decide, by decide, by decide, by decide, by decide, by decide, by decide⟩ <;>
    · unfold surveyBand
      split_ifs <;> simp <;> omega

/-- **C7.** Out-of-range survey answers are clamped to the nearest
boundary, never rejected: the endpoint's score always equals the loop run
on the element-wise clamped list, `clampAns` sends every integer below 0
to 0 and every integer above 4 to 4 (and fixes in-range values), and in
particular an answer `-1` is scored as `0` and an answer `7` as `4`. -/
theorem C7_clamping_leniency (l : List ℤ) :
    (pss10_score l).score = scoreFrom 0 (l.map clampAns) ∧
    (∀ a : ℤ, (0 ≤ a ∧ a ≤ 4 ∧ clampAns a = a) ∨ (a < 0 ∧ clampAns a = 0) ∨
      (4 < a ∧ clampAns a = 4)) ∧
    (pss10_score [-1, 0, 0, 0, 0, 0, 0, 0, 0, 0]).score =
      (pss10_score [0, 0, 0, 0, 0, 0, 0, 0, 0, 0]).score ∧
    (pss10_score [7, 1, 1, 1, 1, 1, 1, 1, 1, 1]).score =
      (pss10_score [4, 1, 1, 1, 1, 1, 1, 1, 1, 1]).score := by
  refine ⟨surveyScore_eq_clamped l, fun a => ?_, ?_, ?_⟩
  · unfold clampAns
    omega
  · simp [pss10_score, surveyScore, surveyAnswers, scoreFrom, REVERSE_SCORED, clampAns]
  · simp [pss10_score, surveyScore, surveyAnswers, scoreFrom, REVERSE_SCORED, clampAns]

/-- **C9.** The survey scorer is total on every 10-element integer list:
the score lies in `[0, 40]` and equals the score of the element-wise
clamped list. -/
theorem C9_survey_total (l : List ℤ) (h : l.length = 10) :
    (0 ≤ surveyScore l ∧ surveyScore l ≤ 40) ∧
    surveyScore l = surveyScore (l.map clampAns) := by
  have hc : ∀ a ∈ l.map clampAns, 0 ≤ a ∧ a ≤ 4 := by
    intro a ha
    obtain ⟨b, _, rfl⟩ := List.mem_map.mp ha
    exact clampAns_bounds b
  have hfix : (l.map clampAns).map clampAns = l.map clampAns := by
    conv_rhs => rw [← List.map_id (l.map clampAns)]
    apply List.map_congr_left
    intro a ha
    obtain ⟨h0, h4⟩ := hc a ha
    simpa using clampAns_eq_of_mem a h0 h4
  have h1 : surveyScore l = scoreFrom 0 (l.map clampAns) := surveyScore_eq_clamped l
  have h2 : surveyScore (l.map clampAns) = scoreFrom 0 (l.map clampAns) := by
    rw [surveyScore_eq_clamped (l.map clampAns), hfix]
  have hb := scoreFrom_bounds (l.map clampAns) 0 hc
  rw [List.length_map, h] at hb
  refine ⟨?_, h1.trans h2.symm⟩
  rw [h1]
  exact ⟨hb.1, by omega⟩

/-- Witness for `C9_survey_total` at a list containing out-of-range
values `-3` and `9`. -/
theorem C9_survey_total_witness :
    (([-3, 9, 0, 1, 2, 3, 4, 0, 1, 2] : List ℤ).length = 10) ∧
    ((0 ≤ surveyScore [-3, 9, 0, 1, 2, 3, 4, 0, 1, 2] ∧
      surveyScore [-3, 9, 0, 1, 2, 3, 4, 0, 1, 2] ≤ 40) ∧
     surveyScore [-3, 9, 0, 1, 2, 3, 4, 0, 1, 2] =
       surveyScore (([-3, 9, 0, 1, 2, 3, 4, 0, 1, 2] : List ℤ).map clampAns)) :=
  ⟨by decide, C9_survey_total [-3, 9, 0, 1, 2, 3, 4, 0, 1, 2] (by decide)⟩

/-! ### Helper lemmas: risk estimator -/

theorem clamp01_eq_min_max (x : ℚ) : clamp01 x = min 1 (max 0 x) := by
  unfold clamp01
  rw [max_min_distrib_left, max_eq_right zero_le_one]

theorem clamp01_of_nonneg (x : ℚ) (h : 0 ≤ x) : clamp01 x = min 1 x := by
  unfold clamp01
  exact max_eq_right (le_min zero_le_one h)

theorem roundHalfEven_bounds (x : ℚ) (h0 : 0 ≤ x) (h1 : x ≤ 1000) :
    0 ≤ roundHalfEven x ∧ roundHalfEven x ≤ 1000 := by
  have hf0 : (0 : ℤ) ≤ ⌊x⌋ := Int.le_floor.mpr (by exact_mod_cast h0)
  have hfx : (⌊x⌋ : ℚ) ≤ x := Int.floor_le x
  have hf1 : ⌊x⌋ ≤ 1000 := by exact_mod_cast hfx.trans h1
  unfold roundHalfEven
  split_ifs with h2 h3 h4
  · exact ⟨hf0, hf1⟩
  · have hq : (⌊x⌋ : ℚ) < 1000 := by linarith
    have : ⌊x⌋ < 1000 := by exact_mod_cast hq
    omega
  · exact ⟨hf0, hf1⟩
  · have hq : (⌊x⌋ : ℚ) < 1000 := by
      push_neg at h2
      linarith
    have : ⌊x⌋ < 1000 := by exact_mod_cast hq
    omega

theorem round3_bounds (x : ℚ) (h0 : 0 ≤ x) (h1 : x ≤ 1) :
    0 ≤ round3 x ∧ round3 x ≤ 1 := by
  obtain ⟨a, b⟩ := roundHalfEven_bounds (1000 * x) (by linarith) (by linarith)
  unfold round3
  constructor
  · exact div_nonneg (by exact_mod_cast a) (by norm_num)
  · rw [div_le_one (by norm_num)]
    exact_mod_cast b

theorem risk_bounds (req : PredictRequest) : 0 ≤ risk req ∧ risk req ≤ 1 := by
  unfold risk
  exact ⟨le_max_left 0 _, max_le (by norm_num) (min_le_left 1 _)⟩

/-- **C1.** For every valid request, the six components equal the
specification's `clamp01` formulas, the output level is the weighted
composite clamped to `[0,1]` and rounded to 3 decimal places, and it lies
in `[0,1]`. -/
theorem C1_estimator_components (req : PredictRequest) (h : ValidPredictRequest req) :
    hr_component req = clamp01 ((req.heart_rate - 55) / 55) ∧
    sleep_component req = 1 - clamp01 (req.sleep_hours / 8) ∧
    steps_component req = clamp01 (1 - clamp01 ((req.steps : ℚ) / 8000)) * 0.4 ∧
    mood_component req = 1 - req.mood_score ∧
    circadian_component req =
      (if req.hour = 10 ∨ req.hour = 11 ∨ req.hour = 15 ∨ req.hour = 16 then 0.15 else 0) ∧
    (req.pss10_score = none → baseline_component req = 0) ∧
    (∀ s : ℤ, req.pss10_score = some s →
      baseline_component req = clamp01 ((s : ℤ) / 40 : ℚ) * 0.3) ∧
    (predict req).predicted_level =
      round3 (clamp01 (0.35 * hr_component req + 0.25 * sleep_component req +
        0.15 * mood_component req + 0.10 * steps_component req +
        circadian_component req + baseline_component req)) ∧
    0 ≤ (predict req).predicted_level ∧ (predict req).predicted_level ≤ 1 := by
  obtain ⟨hhr, hsl0, hsl14, hst, _, _, _, _, hm0, hm1, hp⟩ := h
  refine ⟨?_, ?_, ?_, rfl, ?_, ?_, ?_, rfl, ?_, ?_⟩
  · rw [clamp01_eq_min_max]
    rfl
  · rw [clamp01_of_nonneg _ (div_nonneg hsl0 (by norm_num))]
    rfl
  · have hu : (0 : ℚ) ≤ (req.steps : ℚ) / 8000 :=
      div_nonneg (by exact_mod_cast hst) (by norm_num)
    rw [clamp01_of_nonneg _ hu]
    have h2 : (0 : ℚ) ≤ min 1 ((req.steps : ℚ) / 8000) := le_min zero_le_one hu
    rw [show clamp01 (1 - min 1 ((req.steps : ℚ) / 8000)) =
        max 0 (1 - min 1 ((req.steps : ℚ) / 8000)) from by
      unfold clamp01
      rw [min_eq_right (by linarith)]]
    rfl
  · simp [circadian_component]
  · intro hnone
    unfold baseline_component
    rw [hnone]
  · intro s hs
    have hps : 0 ≤ s := by
      rw [hs] at hp
      exact hp.1
    unfold baseline_component
    rw [hs]
    rw [clamp01_of_nonneg _ (div_nonneg (by exact_mod_cast hps) (by norm_num))]
  · exact (round3_bounds _ (risk_bounds req).1 (risk_bounds req).2).1
  · exact (round3_bounds _ (risk_bounds req).1 (risk_bounds req).2).2

/-- Concrete valid request used as the witness input for
`C1_estimator_components`. -/
def reqW : PredictRequest := ⟨70, 7, 3000, 2, 12, 1, some 20⟩

/-- Witness for `C1_estimator_components` at `reqW`. -/
theorem C1_estimator_components_witness :
    ValidPredictRequest reqW ∧
    (0 ≤ (predict reqW).predicted_level ∧ (predict reqW).predicted_level ≤ 1) :=
  ⟨by decide, (C1_estimator_components reqW (by decide)).2.2.2.2.2.2.2.2⟩

theorem mem_if_singleton (a b : String) (c : Prop) [Decidable c] :
    a ∈ (if c then [b] else []) ↔ c ∧ a = b := by
  split_ifs with h <;> simp [h]

theorem if_singleton_sublist (c : Prop) [Decidable c] (t : String) :
    List.Sublist (if c then [t] else []) [t] := by
  split_ifs
  · exact List.Sublist.refl _
  · exact List.nil_sublist _

/-- **C3.** The factor list is the ordered subsequence of the six fixed
tags whose conditions hold on the unrounded component values, in the fixed
evaluation order, with no tag appearing twice. -/
theorem C3_factors_tags (req : PredictRequest) :
    List.Sublist (predict req).factors
      ["elevated heart rate", "short sleep duration", "low self-reported mood",
       "very low activity", "typical peak hours", "high baseline stress"] ∧
    ("elevated heart rate" ∈ (predict req).factors ↔ hr_component req > 0.6) ∧
    ("short sleep duration" ∈ (predict req).factors ↔ sleep_component req > 0.6) ∧
    ("low self-reported mood" ∈ (predict req).factors ↔ mood_component req > 0.6) ∧
    ("very low activity" ∈ (predict req).factors ↔ steps_component req > 0.4) ∧
    ("typical peak hours" ∈ (predict req).factors ↔ circadian_component req > 0) ∧
    ("high baseline stress" ∈ (predict req).factors ↔ baseline_component req > 0.15) ∧
    (predict req).factors.Nodup := by
  show List.Sublist (factors req) _ ∧ ("elevated heart rate" ∈ factors req ↔ _) ∧
    ("short sleep duration" ∈ factors req ↔ _) ∧ ("low self-reported mood" ∈ factors req ↔ _) ∧
    ("very low activity" ∈ factors req ↔ _) ∧ ("typical peak hours" ∈ factors req ↔ _) ∧
    ("high baseline stress" ∈ factors req ↔ _) ∧ (factors req).Nodup
  refine ⟨?_, ?_, ?_, ?_, ?_, ?_, ?_, ?_⟩
  · show List.Sublist (factors req)
      (((((["elevated heart rate"] ++ ["short sleep duration"]) ++ ["low self-reported mood"]) ++
        ["very low activity"]) ++ ["typical peak hours"]) ++ ["high baseline stress"])
    exact List.Sublist.append
      (List.Sublist.append
        (List.Sublist.append
          (List.Sublist.append
            (List.Sublist.append (if_singleton_sublist _ _) (if_singleton_sublist _ _))
            (if_singleton_sublist _ _))
          (if_singleton_sublist _ _))
        (if_singleton_sublist _ _))
      (if_singleton_sublist _ _)
  · simp [factors, mem_if_singleton]
  · simp [factors, mem_if_singleton]
  · simp [factors, mem_if_singleton]
  · simp [factors, mem_if_singleton]
  · simp [factors, mem_if_singleton]
  · simp [factors, mem_if_singleton]
  · unfold factors
    split_ifs <;> decide

/-- **C6.** The risk band is computed from the unrounded clamped composite
`risk`: "low" iff `risk < 0.33`, "moderate" iff `0.33 ≤ risk < 0.66`,
"high" iff `risk ≥ 0.66`. -/
theorem C6_risk_banding (req : PredictRequest) :
    ((predict req).risk_band = "low" ↔ risk req < 0.33) ∧
    ((predict req).risk_band = "moderate" ↔ 0.33 ≤ risk req ∧ risk req < 0.66) ∧
    ((predict req).risk_band = "high" ↔ 0.66 ≤ risk req) := by
  show (risk_band req = "low" ↔ _) ∧ (risk_band req = "moderate" ↔ _) ∧
    (risk_band req = "high" ↔ _)
  unfold risk_band
  split_ifs with h1 h2
  · exact ⟨iff_of_true rfl h1,
      iff_of_false (by decide) (by rintro ⟨hx, -⟩; linarith),
      iff_of_false (by decide) (by intro hx; linarith)⟩
  · exact ⟨iff_of_false (by decide) h1,
      iff_of_true rfl ⟨not_lt.mp h1, h2⟩,
      iff_of_false (by decide) (by intro hx; linarith)⟩
  · exact ⟨iff_of_false (by decide) h1,
      iff_of_false (by decide) (by rintro ⟨-, hx⟩; exact h2 hx),
      iff_of_true rfl (not_lt.mp h2)⟩

/-- **C8.** For every request with non-negative steps, the steps component
is at most `0.4`, so the strict condition `steps_component > 0.4` never
holds and the tag "very low activity" never appears in the factors. -/
theorem C8_no_very_low_activity (req : PredictRequest) (h : 0 ≤ req.steps) :
    steps_component req ≤ 0.4 ∧ "very low activity" ∉ (predict req).factors := by
  have hu : (0 : ℚ) ≤ (req.steps : ℚ) / 8000 :=
    div_nonneg (by exact_mod_cast h) (by norm_num)
  have h2 : (0 : ℚ) ≤ min 1 ((req.steps : ℚ) / 8000) := le_min zero_le_one hu
  have hle : steps_component req ≤ 0.4 := by
    unfold steps_component
    have h1 : max 0 (1 - min 1 ((req.steps : ℚ) / 8000)) ≤ 1 := by
      apply max_le (by norm_num)
      linarith
    linarith
  refine ⟨hle, ?_⟩
  show "very low activity" ∉ factors req
  have hn : ¬ steps_component req > 0.4 := not_lt.mpr hle
  unfold factors
  rw [if_neg hn]
  simp [mem_if_singleton]

/-- Concrete valid request with zero steps, the witness input for
`C8_no_very_low_activity`. -/
def reqC8 : PredictRequest := ⟨70, 7, 0, 0, 0, 1, none⟩

/-- Witness for `C8_no_very_low_activity` at `reqC8`. -/
theorem C8_no_very_low_activity_witness :
    0 ≤ reqC8.steps ∧
    (steps_component reqC8 ≤ 0.4 ∧ "very low activity" ∉ (predict reqC8).factors) :=
  ⟨by decide, C8_no_very_low_activity reqC8 (by decide)⟩

/-- **C10.** `day_of_week` has no influence on the estimator: two requests
agreeing on every other field produce the same level, band and factors. -/
theorem C10_day_of_week_no_influence (r1 r2 : PredictRequest)
    (hh : r1.heart_rate = r2.heart_rate) (hs : r1.sleep_hours = r2.sleep_hours)
    (hst : r1.steps = r2.steps) (hhr : r1.hour = r2.hour)
    (hm : r1.mood_score = r2.mood_score) (hp : r1.pss10_score = r2.pss10_score) :
    (predict r1).predicted_level = (predict r2).predicted_level ∧
    (predict r1).risk_band = (predict r2).risk_band ∧
    (predict r1).factors = (predict r2).factors := by
  cases r1
  cases r2
  dsimp only at hh hs hst hhr hm hp
  subst hh hs hst hhr hm hp
  exact ⟨rfl, rfl, rfl⟩

/-- Concrete request pair for the `C10_day_of_week_no_influence` witness:
they differ only in `day_of_week` (1 versus 5). -/
def reqDayA : PredictRequest := ⟨70, 7, 3000, 1, 12, 1, none⟩

/-- Second half of the witness pair for `C10_day_of_week_no_influence`. -/
def reqDayB : PredictRequest := ⟨70, 7, 3000, 5, 12, 1, none⟩

/-- Witness for `C10_day_of_week_no_influence` at `reqDayA`/`reqDayB`. -/
theorem C10_day_of_week_no_influence_witness :
    reqDayA.heart_rate = reqDayB.heart_rate ∧ reqDayA.sleep_hours = reqDayB.sleep_hours ∧
    reqDayA.steps = reqDayB.steps ∧ reqDayA.hour = reqDayB.hour ∧
    reqDayA.mood_score = reqDayB.mood_score ∧ reqDayA.pss10_score = reqDayB.pss10_score ∧
    ((predict reqDayA).predicted_level = (predict reqDayB).predicted_level ∧
     (predict reqDayA).risk_band = (predict reqDayB).risk_band ∧
     (predict reqDayA).factors = (predict reqDayB).factors) :=
  ⟨rfl, rfl, rfl, rfl, rfl, rfl,
    C10_day_of_week_no_influence reqDayA reqDayB rfl rfl rfl rfl rfl rfl⟩

/-- The concrete input of the specification's high-risk example:
heart_rate 110, sleep_hours 0, steps 0, mood_score 0, hour 10,
pss10_score 40 (day_of_week 0). -/
def req4 : PredictRequest := ⟨110, 0, 0, 0, 10, 0, some 40⟩

/-- **C4, counterexample.** At the high-risk example input the factors
list does NOT contain all six tags: "very low activity" is absent,
because `steps_component = 0.4` fails the strict test `> 0.4`; moreover
the unclamped composite is `1.24`, not the stated `1.29`. -/
theorem C4_counterexample :
    "very low activity" ∉ (predict req4).factors ∧ risk_raw req4 ≠ 1.29 := by
  constructor
  · show "very low activity" ∉ factors req4
    norm_num [factors, hr_component, sleep_component, steps_component, mood_component,
      circadian_component, baseline_component, req4]
    decide
  · norm_num [risk_raw, hr_component, sleep_component, steps_component,
      mood_component, circadian_component, baseline_component, req4]

/-- **C4, amended.** At the high-risk example input the components are
`1, 1, 1, 0.4, 0.15, 0.3`, the composite is `1.24`, clamped to `1.0`
(so `predicted_level = 1.0`), the band is "high", and the factors are the
five tags other than "very low activity", in evaluation order. -/
theorem C4_high_risk_example :
    hr_component req4 = 1 ∧ sleep_component req4 = 1 ∧ mood_component req4 = 1 ∧
    steps_component req4 = 0.4 ∧ circadian_component req4 = 0.15 ∧
    baseline_component req4 = 0.3 ∧ risk_raw req4 = 1.24 ∧ risk req4 = 1 ∧
    (predict req4).predicted_level = 1 ∧ (predict req4).risk_band = "high" ∧
    (predict req4).factors = ["elevated heart rate", "short sleep duration",
      "low self-reported mood", "typical peak hours", "high baseline stress"] := by
  have hrisk : risk req4 = 1 := by
    norm_num [risk, risk_raw, hr_component, sleep_component, steps_component,
      mood_component, circadian_component, baseline_component, req4]
  refine ⟨?_, ?_, ?_, ?_, ?_, ?_, ?_, hrisk, ?_, ?_, ?_⟩
  · norm_num [hr_component, req4]
  · norm_num [sleep_component, req4]
  · norm_num [mood_component, req4]
  · norm_num [steps_component, req4]
  · norm_num [circadian_component, req4]
  · norm_num [baseline_component, req4]
  · norm_num [risk_raw, hr_component, sleep_component, steps_component,
      mood_component, circadian_component, baseline_component, req4]
  · show round3 (risk req4) = 1
    rw [hrisk]
    norm_num [round3, roundHalfEven]
  · show risk_band req4 = "high"
    unfold risk_band
    rw [hrisk]
    norm_num
  · show factors req4 = _
    norm_num [factors, hr_component, sleep_component, steps_component, mood_component,
      circadian_component, baseline_component, req4]
